import Mathlib

/-!
Verification development for the aggregation core of a multi-brand
e-commerce dashboard.  The definitions below are a shallow embedding of
the TypeScript source: timestamps are modelled as milliseconds since the
Unix epoch (`Int`), on a fixed-offset timeline (daylight-saving shifts
are not modelled), JS numbers are modelled as `ℚ`, and nullable values
as `Option`.
-/

namespace WarRoom

/-! ## Time model (milliseconds since epoch, fixed-offset local time) -/

def msPerDay : Int := 86400000

/-- Calendar day index of a timestamp (floor division, so correct for
timestamps before the epoch as well). -/
def dayIndex (t : Int) : Int := t / msPerDay

/-- date-fns startOfDay: midnight of the day containing t. -/
def startOfDay (t : Int) : Int := dayIndex t * msPerDay

/-- date-fns endOfDay: 23:59:59.999 of the day containing t. -/
def endOfDay (t : Int) : Int := startOfDay t + msPerDay - 1

/-- date-fns subDays. -/
def subDays (t : Int) (n : Int) : Int := t - n * msPerDay

/-- date-fns differenceInDays: number of full days between two timestamps.
On this fixed-offset timeline and for b ≤ a (the only regime in which the
source calls it) the full-day count equals floor divison of a - b. -/
def differenceInDays (a b : Int) : Int := (a - b) / msPerDay

/-! ## Civil (Gregorian) calendar arithmetic

Used by the WooCommerce adapter (which builds calendar-aligned ranges
from year/month/day components) and by date-fns subYears.  The
days-from-civil conversion is the standard Gregorian algorithm. -/

def isLeap (y : Int) : Bool := (y % 4 == 0 && y % 100 != 0) || y % 400 == 0

def daysInMonth (y m : Int) : Int :=
  if m = 2 then (if isLeap y then 29 else 28)
  else if m = 4 ∨ m = 6 ∨ m = 9 ∨ m = 11 then 30
  else 31

/-- Day index (days since 1970-01-01) of a Gregorian date. -/
def daysFromCivil (y m d : Int) : Int :=
  let y' := if m ≤ 2 then y - 1 else y
  let era := y' / 400
  let yoe := y' - era * 400
  let mp := if 2 < m then m - 3 else m + 9
  let doy := (153 * mp + 2) / 5 + d - 1
  let doe := yoe * 365 + yoe / 4 - yoe / 100 + doy
  era * 146097 + doe - 719468

structure CivilDate where
  year : Int
  month : Int
  day : Int
deriving DecidableEq

/-- Gregorian date of a day index (inverse of daysFromCivil). -/
def civilFromDays (z : Int) : CivilDate :=
  let z' := z + 719468
  let era := z' / 146097
  let doe := z' - era * 146097
  let yoe := (doe - doe / 1460 + doe / 36524 - doe / 146096) / 365
  let y := yoe + era * 400
  let doy := doe - (365 * yoe + yoe / 4 - yoe / 100)
  let mp := (5 * doy + 2) / 153
  let d := doy - (153 * mp + 2) / 5 + 1
  let m := if mp < 10 then mp + 3 else mp - 9
  ⟨if m ≤ 2 then y + 1 else y, m, d⟩

/-- Midnight timestamp of a Gregorian date. -/
def msFromCivil (y m d : Int) : Int := daysFromCivil y m d * msPerDay

/-- date-fns subYears by one year: decrement the calendar year keeping
month and day, clamping the day to the length of the target month
(Feb 29 becomes Feb 28), preserving the time of day. -/
def subYears (t : Int) : Int :=
  let di := dayIndex t
  let msOfDay := t - di * msPerDay
  let c := civilFromDays di
  daysFromCivil (c.year - 1) c.month (min c.day (daysInMonth (c.year - 1) c.month)) * msPerDay
    + msOfDay

/-! ## Period resolver (dateUtils: getPeriodDates / getPreviousPeriodDates) -/

inductive TimePeriod
  | today
  | week
  | month
  | year
  | custom
deriving DecidableEq

inductive ComparisonPeriod
  | none
  | previous_period
  | previous_year
deriving DecidableEq

/-- A start/end pair of timestamps; the source calls the second field
end, which is a reserved word here, hence stop. -/
structure PeriodDates where
  start : Int
  stop : Int
deriving DecidableEq

/-- A caller-supplied custom date range. -/
structure DateRange where
  start : Int
  stop : Int
deriving DecidableEq

/-- getPeriodDates from the period-resolver module: maps a logical period
plus the current clock value to a concrete timestamp range. -/
def getPeriodDates (now : Int) (period : TimePeriod) (customRange : Option DateRange) :
    PeriodDates :=
  let today := startOfDay now
  let todayEnd := endOfDay now
  match period, customRange with
  | .today, _ => ⟨today, todayEnd⟩
  | .week, _ => ⟨subDays today 6, todayEnd⟩
  | .month, _ => ⟨subDays today 29, todayEnd⟩
  | .year, _ => ⟨subDays today 364, todayEnd⟩
  | .custom, some r => ⟨startOfDay r.start, endOfDay r.stop⟩
  | .custom, Option.none => ⟨subDays today 29, todayEnd⟩

/-- getPreviousPeriodDates: the comparison window for a current window. -/
def getPreviousPeriodDates (currentDates : PeriodDates) (comparison : ComparisonPeriod) :
    Option PeriodDates :=
  match comparison with
  | .none => Option.none
  | .previous_year =>
      some ⟨subYears currentDates.start, subYears currentDates.stop⟩
  | .previous_period =>
      let daysDiff := differenceInDays currentDates.stop currentDates.start + 1
      some ⟨subDays currentDates.start daysDiff, subDays currentDates.stop daysDiff⟩

/-! ## Delta engine (dateUtils: calculateDelta / parseMetricValue) -/

inductive Direction
  | up
  | down
  | flat
deriving DecidableEq

structure Delta where
  percent : ℚ
  absolute : ℚ
  direction : Direction
deriving DecidableEq

/-- calculateDelta from the source. -/
def calculateDelta (current previous : ℚ) : Delta :=
  if previous = 0 then
    ⟨if 0 < current then 100 else 0, current, if 0 < current then .up else .flat⟩
  else
    let percent := (current - previous) / previous * 100
    let absolute := current - previous
    ⟨percent, absolute,
      if (0.5 : ℚ) < percent then .up else if percent < (-0.5 : ℚ) then .down else .flat⟩

/-- Reference definition of the delta computation, following the words of
the specification (general case formula plus the explicit previous = 0
edge case), for comparison with calculateDelta. -/
def calculateDeltaSpec (current previous : ℚ) : Delta :=
  if previous = 0 then
    { percent := if 0 < current then 100 else 0
      absolute := current
      direction := if 0 < current then .up else .flat }
  else
    { percent := (current - previous) / previous * 100
      absolute := current - previous
      direction :=
        if (0.5 : ℚ) < (current - previous) / previous * 100 then .up
        else if (current - previous) / previous * 100 < (-0.5 : ℚ) then .down
        else .flat }

/-- parseFloat digit accumulator. -/
def digitsToNat (l : List Char) : Nat :=
  l.foldl (fun a c => a * 10 + (c.toNat - Char.toNat (Char.ofNat 48))) 0

/-- JS parseFloat on a cleaned metric string: parse the longest numeric
prefix (optional sign, integer digits, optional fractional digits);
Option.none models NaN.  Exponent notation does not occur in rendered
metric strings and is not modelled. -/
def jsParseFloat (s : String) : Option ℚ :=
  let cs := s.data.dropWhile Char.isWhitespace
  let (sign, cs1) : ℚ × List Char :=
    match cs with
    | Char.ofNat 45 :: r => (-1, r)  -- minus sign
    | Char.ofNat 43 :: r => (1, r)   -- plus sign
    | _ => (1, cs)
  let ip := cs1.takeWhile Char.isDigit
  let cs2 := cs1.dropWhile Char.isDigit
  let fp :=
    match cs2 with
    | Char.ofNat 46 :: r => r.takeWhile Char.isDigit  -- decimal point
    | _ => []
  if ip.isEmpty ∧ fp.isEmpty then Option.none
  else some (sign * ((digitsToNat ip : ℚ) + (digitsToNat fp : ℚ) / (10 : ℚ) ^ fp.length))

/-- parseMetricValue from the source: strip currency symbols, commas,
percent signs and whitespace, then parseFloat, with NaN collapsed to 0. -/
def parseMetricValue (value : String) : ℚ :=
  let cleaned := String.mk (value.data.filter (fun c =>
    ¬(c = Char.ofNat 163 ∨ c = Char.ofNat 36 ∨ c = Char.ofNat 8364 ∨
      c = Char.ofNat 44 ∨ c = Char.ofNat 37 ∨ c.isWhitespace)))
  (jsParseFloat cleaned).getD 0

/-! ## Number formatting helpers used when rendering metric values -/

/-- Insert a comma after every group of three characters of a reversed
digit list (helper for toLocaleString). -/
def groupThree : List Char → List Char
  | a :: b :: c :: d :: rest => a :: b :: c :: Char.ofNat 44 :: groupThree (d :: rest)
  | l => l

/-- Number.toLocaleString for integers: decimal digits with thousands
separators. -/
def toLocaleString (n : Int) : String :=
  if n < 0 then "-" ++ String.mk ((groupThree (Nat.repr n.natAbs).data.reverse).reverse)
  else String.mk ((groupThree (Nat.repr n.toNat).data.reverse).reverse)

/-- JS Math.round: round half toward positive infinity. -/
def jsRound (q : ℚ) : Int := ⌊q + 1 / 2⌋

/-- Number.toFixed(2) for the nonnegative values that occur in the
metric payloads. -/
def toFixed2 (q : ℚ) : String :=
  let n := jsRound (q * 100)
  toString (n / 100) ++ "." ++
    (if n % 100 < 10 then "0" else "") ++ toString (n % 100)

/-- Number.toFixed(1) for the nonnegative values that occur in the
metric payloads. -/
def toFixed1 (q : ℚ) : String :=
  let n := jsRound (q * 10)
  toString (n / 10) ++ "." ++ toString (n % 10)

/-! ## Versioned TTL cache (cache module)

The process-wide epoch CACHE_VERSION is a startup timestamp rendered in
base 36; since that rendering is injective, the version tag is modelled
directly as the integer epoch value.  The store is modelled as an
association list with Map.set replace-on-write semantics. -/

structure CacheEntry (α : Type) where
  data : α
  expiry : Int
  version : Int
deriving DecidableEq

def CacheStore (α : Type) : Type := List (String × CacheEntry α)

def storeLookup (key : String) (st : CacheStore α) : Option (CacheEntry α) :=
  List.lookup key st

def storeErase (key : String) (st : CacheStore α) : CacheStore α :=
  st.filter (fun kv => kv.1 != key)

/-- The default TTL constant (5 minutes). -/
def defaultTTL : Int := 5 * 60 * 1000

/-- Cache.get, taking the clock and the process epoch as explicit
arguments: returns the value (or none) together with the store after any
lazy eviction. -/
def cacheGet (now epoch : Int) (key : String) (st : CacheStore α) :
    Option α × CacheStore α :=
  match storeLookup key st with
  | Option.none => (Option.none, st)
  | some entry =>
      if entry.expiry < now ∨ entry.version ≠ epoch then (Option.none, storeErase key st)
      else (some entry.data, st)

/-- Cache.set: stamp the entry with the current epoch and now + ttl,
defaulting the ttl to the configured constant. -/
def cacheSet (now epoch : Int) (key : String) (data : α) (ttlMs : Option Int)
    (st : CacheStore α) : CacheStore α :=
  (key, ⟨data, now + ttlMs.getD defaultTTL, epoch⟩) :: storeErase key st

/-- The cached read-through helper, for producers of nullable values
(data type Option β models T-or-null): returns the result, the store
afterwards, and whether the producer was invoked.  The TS guard
(existing !== null) treats a stored null exactly like a miss. -/
def cached (now epoch : Int) (key : String) (producer : Option β) (ttlMs : Option Int)
    (st : CacheStore (Option β)) : Option β × CacheStore (Option β) × Bool :=
  let r := cacheGet now epoch key st
  match r.1 with
  | some (some v) => (some v, r.2, false)
  | _ => (producer, cacheSet now epoch key producer ttlMs r.2, true)

/-! ## Timeout-guarded fetch primitive (cache module) -/

/-- The eventual settlement of a wrapped promise: resolution or
rejection at a given time, or never settling. -/
inductive PromiseOutcome (α : Type)
  | resolved (v : α) (t : Int)
  | rejected (t : Int)
  | pending
deriving DecidableEq

/-- withTimeout: race the operation against a timer that resolves the
fallback at timeoutMs.  The result type α (rather than an error monad)
captures that the wrapper always resolves: a rejection of the raced
operation is caught and mapped to the fallback, and a timer win discards
the operation and yields the fallback. -/
def withTimeout (promise : PromiseOutcome α) (timeoutMs : Int) (fallback : α) : α :=
  match promise with
  | .resolved v t => if t < timeoutMs then v else fallback
  | .rejected _ => fallback
  | .pending => fallback

structure FetchEntry (α : Type) where
  key : String
  promise : PromiseOutcome α
  fallback : α
deriving DecidableEq

/-- fetchAllWithTimeout: apply the per-entry timeout/fallback rule to
every entry independently and collect one keyed result per entry. -/
def fetchAllWithTimeout (entries : List (FetchEntry α)) (timeoutMs : Int) :
    List (String × α) :=
  entries.map (fun e => (e.key, withTimeout e.promise timeoutMs e.fallback))

/-! ## WooCommerce service (adapter) -/

/-- A successfully parsed reports-API response (total_sales and
total_orders fields).  A malformed body that parses to NaN is outside
the model. -/
structure OrderTotals where
  total_sales : ℚ
  total_orders : Int
deriving DecidableEq

structure OrderStats where
  revenue : ℚ
  orders : Int
  avgOrderValue : ℚ
deriving DecidableEq

/-- WooCommerceService.getOrderStats, as a function of the outcome of
its reports-API fetch: none covers a thrown error, a timeout or a
non-ok status, all of which land in the catch branch that returns
zeroes.  The read-through cache around the producer is orthogonal and
modelled separately. -/
def getOrderStats (fetchOutcome : Option OrderTotals) : OrderStats :=
  match fetchOutcome with
  | Option.none => ⟨0, 0, 0⟩
  | some totals =>
      let revenue := totals.total_sales
      let orderCount := totals.total_orders
      let avgOrderValue : ℚ := if 0 < orderCount then revenue / (orderCount : ℚ) else 0
      ⟨(jsRound revenue : ℚ), orderCount, (jsRound (avgOrderValue * 100) : ℚ) / 100⟩

/-- JS Date.prototype.getDay: weekday with 0 = Sunday (the epoch day
1970-01-01 was a Thursday). -/
def getDay (t : Int) : Int := (dayIndex t + 4) % 7

structure WooRange where
  after : Int
  before : Int
deriving DecidableEq

/-- WooCommerceService.getDateRange.  Non-custom ranges are built from
calendar components of now: today = midnight today, week = midnight of
the preceding Sunday (setDate(getDate - getDay)), month = the first of
the current month, year = the first of January; before is today at
23:59:59.000.  Custom ranges use start-of-day/end-of-day (23:59:59.999)
of the supplied bounds. -/
def wooGetDateRange (now : Int) (period : TimePeriod) (customRange : Option DateRange) :
    WooRange :=
  let c := civilFromDays (dayIndex now)
  let defaultBefore := msFromCivil c.year c.month c.day + 86399000
  match period, customRange with
  | .custom, some r => ⟨startOfDay r.start, endOfDay r.stop⟩
  | .custom, Option.none => ⟨msFromCivil c.year c.month 1, defaultBefore⟩
  | .today, _ => ⟨msFromCivil c.year c.month c.day, defaultBefore⟩
  | .week, _ => ⟨startOfDay now - getDay now * msPerDay, defaultBefore⟩
  | .month, _ => ⟨msFromCivil c.year c.month 1, defaultBefore⟩
  | .year, _ => ⟨msFromCivil c.year 1 1, defaultBefore⟩

/-! ## GA4 service (adapter) -/

/-- A GA4 date range at day granularity (the service passes date strings
such as 7daysAgo / today / yyyy-MM-dd, which denote whole days). -/
structure Ga4Range where
  startDay : Int
  stopDay : Int
deriving DecidableEq

/-- GA4Service.getDateRange, with the NdaysAgo / today strings
interpreted as day indexes relative to now. -/
def ga4GetDateRange (now : Int) (period : TimePeriod) (customRange : Option Ga4Range) :
    Ga4Range :=
  match period, customRange with
  | .custom, some r => r
  | .custom, Option.none => ⟨dayIndex now - 30, dayIndex now⟩
  | .today, _ => ⟨dayIndex now, dayIndex now⟩
  | .week, _ => ⟨dayIndex now - 7, dayIndex now⟩
  | .month, _ => ⟨dayIndex now - 30, dayIndex now⟩
  | .year, _ => ⟨dayIndex now - 365, dayIndex now⟩

/-- The traffic-stats fields consumed by the brand aggregation. -/
structure GA4Stats where
  sessions : Int
  bounceRate : ℚ
deriving DecidableEq

/-! ## Fireblood brand aggregation (metrics array) -/

structure BrandMetric where
  label : String
  value : String
  change : String
  changeType : String
  status : String
  isLive : Bool
deriving DecidableEq

/-- JS truthiness of a nullable string: null and the empty string are
falsy. -/
def jsTruthyStr (o : Option String) : Bool :=
  match o with
  | some s => s != ""
  | Option.none => false

/-- The six-entry metrics array of getFirebloodData, as a function of
the resolved adapter results: periodStats is the order-stats result
(null when the WooCommerce factory returned null), ga4Stats the traffic
stats (null when the GA4 factory returned null). -/
def getFirebloodMetrics (periodStats : Option OrderStats) (ga4Stats : Option GA4Stats)
    (periodLabel : String) : List BrandMetric :=
  let dtcRevenue : Int := match periodStats with | some p => jsRound p.revenue | Option.none => 0
  let dtcOrders : Int := match periodStats with | some p => p.orders | Option.none => 0
  let convRate : Option String :=
    match ga4Stats with
    | some g =>
        if 0 < g.sessions then some (toFixed2 ((dtcOrders : ℚ) / (g.sessions : ℚ) * 100))
        else Option.none
    | Option.none => Option.none
  [ { label := "Revenue (" ++ periodLabel ++ ")"
      value := match periodStats with
               | some _ => "£" ++ toLocaleString dtcRevenue
               | Option.none => "N/A"
      change := if periodStats.isSome then "LIVE" else "Not connected"
      changeType := "positive", status := "good"
      isLive := periodStats.isSome },
    { label := "Orders"
      value := match periodStats with
               | some _ => toLocaleString dtcOrders
               | Option.none => "N/A"
      change := if periodStats.isSome then "LIVE" else "Not connected"
      changeType := "positive", status := "good"
      isLive := periodStats.isSome },
    { label := "AOV"
      value := match periodStats with
               | some p => "£" ++ toFixed2 p.avgOrderValue
               | Option.none => "N/A"
      change := if periodStats.isSome then "LIVE" else "Not connected"
      changeType := "positive", status := "good"
      isLive := periodStats.isSome },
    { label := "Sessions"
      value := match ga4Stats with
               | some g => toLocaleString g.sessions
               | Option.none => "N/A"
      change := if ga4Stats.isSome then "LIVE" else "GA4 not connected"
      changeType := "positive", status := "good"
      isLive := ga4Stats.isSome },
    { label := "Conversion Rate"
      value := if jsTruthyStr convRate then convRate.getD "" ++ "%" else "N/A"
      change := if jsTruthyStr convRate then "LIVE" else "Need GA4"
      changeType := "positive", status := "good"
      isLive := jsTruthyStr convRate },
    { label := "Bounce Rate"
      value := match ga4Stats with
               | some g => toFixed1 g.bounceRate ++ "%"
               | Option.none => "N/A"
      change := if ga4Stats.isSome then "LIVE" else "GA4 not connected"
      changeType := "neutral", status := "good"
      isLive := ga4Stats.isSome } ]

/-- getFirebloodData restricted to its metrics array, on the success
path of its Promise.all: wooPresent is whether the WooCommerce factory
returned a service (credentials present); wooReports is the outcome of
the order-stats fetch when it did.  When the service is present,
periodStats is the never-null result of getOrderStats. -/
def getFirebloodData (wooPresent : Bool) (wooReports : Option OrderTotals)
    (ga4Stats : Option GA4Stats) (periodLabel : String) : List BrandMetric :=
  getFirebloodMetrics
    (if wooPresent then some (getOrderStats wooReports) else Option.none)
    ga4Stats periodLabel

/-! ## Client-side delta annotation (metricsWithDeltas) -/

structure MetricWithDelta where
  base : BrandMetric
  previousValue : Option String
  previousRaw : Option ℚ
  currentRaw : Option ℚ
  deltaPercent : Option ℚ
  deltaAbsolute : Option ℚ
deriving DecidableEq

/-- A metric passed through unchanged, with no delta fields. -/
def plainMetric (m : BrandMetric) : MetricWithDelta :=
  ⟨m, Option.none, Option.none, Option.none, Option.none, Option.none⟩

/-- The per-index step of metricsWithDeltas: prevMetric is
previousMetrics?.[idx]; when it is absent or comparison is disabled the
metric is passed through; otherwise both display strings are re-parsed
and the delta fields attached. -/
def metricStep (comparisonEnabled : Bool) (prevMetric : Option BrandMetric)
    (metric : BrandMetric) : MetricWithDelta :=
  match prevMetric, comparisonEnabled with
  | some pm, true =>
      let currentVal := parseMetricValue metric.value
      let prevVal := parseMetricValue pm.value
      let delta := calculateDelta currentVal prevVal
      ⟨metric, some pm.value, some prevVal, some currentVal,
        some delta.percent, some delta.absolute⟩
  | _, _ => plainMetric metric

/-- Index-tracking map underlying metricsWithDeltas. -/
def metricsWithDeltasFrom (previousMetrics : Option (List BrandMetric))
    (comparisonEnabled : Bool) : Nat → List BrandMetric → List MetricWithDelta
  | _, [] => []
  | idx, m :: rest =>
      metricStep comparisonEnabled (previousMetrics.bind (fun l => l.get? idx)) m ::
        metricsWithDeltasFrom previousMetrics comparisonEnabled (idx + 1) rest

/-- metricsWithDeltas from the dashboard component: map the current
metrics, pairing each with the previous-period metric at the same index
when comparison data is present. -/
def metricsWithDeltas (currentMetrics : List BrandMetric)
    (previousMetrics : Option (List BrandMetric)) (comparisonEnabled : Bool) :
    List MetricWithDelta :=
  metricsWithDeltasFrom previousMetrics comparisonEnabled 0 currentMetrics

/-! ## Helper lemmas -/

theorem storeLookup_cacheSet (now epoch : Int) (key : String) (data : α)
    (ttlMs : Option Int) (st : CacheStore α) :
    storeLookup key (cacheSet now epoch key data ttlMs st) =
      some ⟨data, now + ttlMs.getD defaultTTL, epoch⟩ := by
  simp [storeLookup, cacheSet, List.lookup]

theorem cacheGet_of_lookup_some (now epoch : Int) (key : String) (st : CacheStore α)
    (e : CacheEntry α) (h : storeLookup key st = some e) :
    cacheGet now epoch key st =
      if e.expiry < now ∨ e.version ≠ epoch then (Option.none, storeErase key st)
      else (some e.data, st) := by
  simp [cacheGet, h]

theorem cacheGet_of_lookup_none (now epoch : Int) (key : String) (st : CacheStore α)
    (h : storeLookup key st = Option.none) :
    cacheGet now epoch key st = (Option.none, st) := by
  simp [cacheGet, h]

theorem toFixed2_ne_empty (q : ℚ) : toFixed2 q ≠ "" := by
  unfold toFixed2
  intro h
  have hlen := congrArg String.length h
  simp [String.length_append] at hlen
  exact absurd hlen.1.1.2 (by decide)

/-! ## Claims about the cache (C5, C10) -/

/-- C5 counterexample: the claim says a read at now equal to expiry
returns null, but the eviction test is strict (now strictly greater than
expiry), so an entry written at time 0 with ttl 1000 is still served at
time 1000. -/
theorem C5_counterexample :
    (cacheGet 1000 7 "k" (cacheSet 0 7 "k" (42 : Int) (some 1000) [])).1 = some 42 ∧
    (0 : Int) + 1000 ≤ 1000 := by
  constructor
  · rfl
  · decide

/-- C5 amended: an entry is valid iff now is at most its expiry
(eviction requires now to strictly exceed expiry) and its version equals
the current epoch; get evicts and returns null exactly when the entry is
present but invalid, and set always stamps the current epoch and expiry
now + ttlMs, defaulting ttlMs to the configured five-minute constant. -/
theorem C5_cache_validity (α : Type) (st : CacheStore α) (now epoch : Int) (key : String)
    (data : α) (ttlMs : Option Int) (e : CacheEntry α) (now2 epoch2 : Int) :
    storeLookup key (cacheSet now epoch key data ttlMs st) =
      some ⟨data, now + ttlMs.getD defaultTTL, epoch⟩ ∧
    (storeLookup key st = some e →
      ((e.expiry < now2 ∨ e.version ≠ epoch2) →
        cacheGet now2 epoch2 key st = (Option.none, storeErase key st)) ∧
      (now2 ≤ e.expiry → e.version = epoch2 →
        cacheGet now2 epoch2 key st = (some e.data, st))) ∧
    (storeLookup key st = Option.none → cacheGet now2 epoch2 key st = (Option.none, st)) := by
  refine ⟨storeLookup_cacheSet now epoch key data ttlMs st, fun h => ⟨fun hbad => ?_, ?_⟩, ?_⟩
  · rw [cacheGet_of_lookup_some now2 epoch2 key st e h, if_pos hbad]
  · intro h1 h2
    rw [cacheGet_of_lookup_some now2 epoch2 key st e h, if_neg]
    push_neg
    exact ⟨by omega, h2⟩
  · exact cacheGet_of_lookup_none now2 epoch2 key st

theorem C5_cache_validity_witness :
    storeLookup "k" (cacheSet 0 7 "k" (42 : Int) (some 1000) []) =
      some ⟨42, 0 + (some (1000 : Int)).getD defaultTTL, 7⟩ ∧
    cacheGet 1001 7 "k" (cacheSet 0 7 "k" (42 : Int) (some 1000) []) =
      (Option.none, storeErase "k" (cacheSet 0 7 "k" (42 : Int) (some 1000) [])) := by
  have h := C5_cache_validity Int (cacheSet 0 7 "k" (42 : Int) (some 1000) []) 0 7 "k"
    42 (some 1000) ⟨42, 1000, 7⟩ 1001 7
  exact ⟨h.1, (h.2.1 (by rfl)).1 (by left; decide)⟩

/-- C10: a null produced by the wrapped producer is stored but is
indistinguishable from a cache miss, so every subsequent cached call for
the same key within the TTL invokes its producer again instead of
returning the stored null. -/
theorem C10_cached_null_refetches (β : Type) (st : CacheStore (Option β)) (now epoch : Int)
    (key : String) (ttlMs : Option Int) (p2 : Option β) (ttlMs2 : Option Int) (now2 : Int)
    (hmiss : storeLookup key st = Option.none)
    (hwithin : now2 ≤ now + ttlMs.getD defaultTTL) :
    (cached now epoch key Option.none ttlMs st).2.2 = true ∧
    storeLookup key (cached now epoch key Option.none ttlMs st).2.1 =
      some ⟨Option.none, now + ttlMs.getD defaultTTL, epoch⟩ ∧
    (cached now2 epoch key p2 ttlMs2 (cached now epoch key Option.none ttlMs st).2.1).2.2
      = true ∧
    (cached now2 epoch key p2 ttlMs2 (cached now epoch key Option.none ttlMs st).2.1).1
      = p2 := by
  have h1 : cached now epoch key Option.none ttlMs st =
      (Option.none, cacheSet now epoch key Option.none ttlMs st, true) := by
    unfold cached
    rw [cacheGet_of_lookup_none now epoch key st hmiss]
  have h2 : cacheGet now2 epoch key (cacheSet now epoch key Option.none ttlMs st) =
      (some Option.none, cacheSet now epoch key Option.none ttlMs st) := by
    rw [cacheGet_of_lookup_some now2 epoch key _ _
      (storeLookup_cacheSet now epoch key Option.none ttlMs st), if_neg]
    push_neg
    refine ⟨?_, rfl⟩
    show now2 ≤ now + ttlMs.getD defaultTTL
    omega
  rw [h1]
  refine ⟨rfl, storeLookup_cacheSet now epoch key Option.none ttlMs st, ?_, ?_⟩ <;>
    · unfold cached
      rw [h2]

theorem C10_cached_null_refetches_witness :
    (cached 0 7 "k" (Option.none : Option Int) Option.none []).2.2 = true ∧
    (cached 1000 7 "k" (some (5 : Int)) Option.none
      (cached 0 7 "k" (Option.none : Option Int) Option.none []).2.1).1 = some 5 := by
  have h := C10_cached_null_refetches Int [] 0 7 "k" Option.none (some 5) Option.none 1000
    (by rfl) (by decide)
  exact ⟨h.1, h.2.2.2⟩

/-! ## Claims about the timeout-guarded fetch primitive (C6) -/

/-- C6: withTimeout never rejects: it yields the fallback both when the
wrapped operation rejects and when the timer wins (the operation is
pending or settles no earlier than the deadline), and the operation
value when it resolves in time; fetchAllWithTimeout never rejects and
returns one result per entry, each entry mapped independently through
its own timeout/fallback rule, so a rejecting entry maps to its own
fallback without dropping or altering any other result. -/
theorem C6_withTimeout_total (α : Type) :
    (∀ (t tmo : Int) (fb : α), withTimeout (.rejected t) tmo fb = fb) ∧
    (∀ (tmo : Int) (fb : α), withTimeout (.pending) tmo fb = fb) ∧
    (∀ (v : α) (t tmo : Int) (fb : α), tmo ≤ t → withTimeout (.resolved v t) tmo fb = fb) ∧
    (∀ (v : α) (t tmo : Int) (fb : α), t < tmo → withTimeout (.resolved v t) tmo fb = v) ∧
    (∀ (entries : List (FetchEntry α)) (tmo : Int),
      (fetchAllWithTimeout entries tmo).map Prod.fst = entries.map FetchEntry.key) ∧
    (∀ (entries : List (FetchEntry α)) (tmo : Int) (i : Nat),
      (fetchAllWithTimeout entries tmo).get? i =
        (entries.get? i).map (fun e => (e.key, withTimeout e.promise tmo e.fallback))) ∧
    fetchAllWithTimeout
        [⟨"a", .rejected 5, "fallbackA"⟩, ⟨"b", .resolved "x" 5, "fallbackB"⟩] 100 =
      [("a", "fallbackA"), ("b", "x")] := by
  refine ⟨fun t tmo fb => rfl, fun tmo fb => rfl, fun v t tmo fb h => ?_,
    fun v t tmo fb h => ?_, fun entries tmo => ?_, fun entries tmo i => ?_, rfl⟩
  · simp [withTimeout]
    omega
  · simp [withTimeout, h]
  · simp [fetchAllWithTimeout]
  · simp [fetchAllWithTimeout, List.get?_eq_getElem?, List.getElem?_map]

theorem C6_withTimeout_total_witness :
    withTimeout (.resolved (7 : Int) 200) 100 9 = 9 ∧
    withTimeout (.resolved (7 : Int) 50) 100 9 = 7 := by
  have h := C6_withTimeout_total Int
  exact ⟨h.2.2.1 7 200 100 9 (by decide), h.2.2.2.1 7 50 100 9 (by decide)⟩

/-! ## Claims about the delta engine (C7) -/

/-- C7: calculateDelta coincides with the reference definition from the
specification on all rational inputs, including the stated concrete
cases. -/
theorem C7_calculateDelta_refines :
    (∀ current previous : ℚ,
      calculateDelta current previous = calculateDeltaSpec current previous) ∧
    calculateDelta 120 100 = ⟨20, 20, .up⟩ ∧
    calculateDelta 50 0 = ⟨100, 50, .up⟩ ∧
    calculateDelta 0 0 = ⟨0, 0, .flat⟩ := by
  refine ⟨fun current previous => ?_, ?_, ?_, ?_⟩
  · unfold calculateDelta calculateDeltaSpec
    split <;> rfl
  · unfold calculateDelta
    norm_num [Delta.mk.injEq]
  · unfold calculateDelta
    norm_num [Delta.mk.injEq]
  · unfold calculateDelta
    norm_num [Delta.mk.injEq]

/-! ## Claims about the period resolver (C8, C9, C4) -/

/-- C8: resolving a comparison for a day-aligned window (start at
midnight, end at end-of-day, start at most end — the shape of every
window the resolver produces) yields: null for mode none; for
previous_period a window shifted back by differenceInDays(end,start)+1
days, preserving the duration in days exactly and ending exactly one
day before the source window starts; and for previous_year a window
whose bounds are moved back one calendar year (date-fns subYears),
which differs from a 365-day shift across a leap span. -/
theorem C8_comparison_windows (W : PeriodDates)
    (hstart : W.start % msPerDay = 0)
    (hstop : W.stop % msPerDay = msPerDay - 1)
    (_hle : W.start ≤ W.stop) :
    getPreviousPeriodDates W .none = Option.none ∧
    getPreviousPeriodDates W .previous_period =
      some ⟨subDays W.start (differenceInDays W.stop W.start + 1),
            subDays W.stop (differenceInDays W.stop W.start + 1)⟩ ∧
    differenceInDays (subDays W.stop (differenceInDays W.stop W.start + 1))
        (subDays W.start (differenceInDays W.stop W.start + 1)) =
      differenceInDays W.stop W.start ∧
    dayIndex (subDays W.stop (differenceInDays W.stop W.start + 1)) =
      dayIndex W.start - 1 ∧
    getPreviousPeriodDates W .previous_year =
      some ⟨subYears W.start, subYears W.stop⟩ ∧
    subYears (msFromCivil 2024 6 15) = msFromCivil 2023 6 15 ∧
    subYears (msFromCivil 2024 6 15) ≠ subDays (msFromCivil 2024 6 15) 365 := by
  refine ⟨rfl, rfl, ?_, ?_, rfl, by decide, by decide⟩
  · simp only [differenceInDays, subDays]
    congr 1
    ring
  · simp only [differenceInDays, subDays, dayIndex, msPerDay] at hstart hstop ⊢
    omega

theorem C8_comparison_windows_witness :
    getPreviousPeriodDates ⟨0, 86399999⟩ .none = Option.none ∧
    dayIndex (subDays (86399999 : Int) (differenceInDays 86399999 0 + 1)) =
      dayIndex 0 - 1 := by
  have h := C8_comparison_windows ⟨0, 86399999⟩ (by decide) (by decide) (by decide)
  exact ⟨h.1, h.2.2.2.1⟩

/-- C9 counterexample: a custom range whose supplied start lies on a
later day than its supplied end produces a window with start strictly
after end, violating the claimed invariant. -/
theorem C9_counterexample :
    (getPeriodDates 0 .custom (some ⟨msFromCivil 2025 1 5, msFromCivil 2025 1 3⟩)).stop <
      (getPeriodDates 0 .custom (some ⟨msFromCivil 2025 1 5, msFromCivil 2025 1 3⟩)).start := by
  decide

/-- C9 amended: every window produced by the resolver satisfies start
at most end for the four non-custom kinds (whose end is end-of-day now),
and for custom ranges whenever the supplied start does not lie on a
strictly later day than the supplied end; a reversed cross-day custom
range violates the invariant (see the counterexample). -/
theorem C9_window_invariant (now : Int) (period : TimePeriod) (range : Option DateRange)
    (hcustom : period = .custom → ∀ r, range = some r → dayIndex r.start ≤ dayIndex r.stop) :
    (getPeriodDates now period range).start ≤ (getPeriodDates now period range).stop ∧
    (period ≠ .custom → (getPeriodDates now period range).stop = endOfDay now) := by
  cases range with
  | none =>
      cases period <;>
        exact ⟨by simp only [getPeriodDates, subDays, startOfDay, endOfDay, dayIndex,
                    msPerDay]; omega,
               fun _ => rfl⟩
  | some r =>
      cases period
      case custom =>
        have h := hcustom rfl r rfl
        refine ⟨?_, fun hne => absurd rfl hne⟩
        simp only [getPeriodDates, startOfDay, endOfDay, dayIndex, msPerDay] at h ⊢
        omega
      all_goals
        exact ⟨by simp only [getPeriodDates, subDays, startOfDay, endOfDay, dayIndex,
                    msPerDay]; omega,
               fun _ => rfl⟩

theorem C9_window_invariant_witness :
    (getPeriodDates 0 .week Option.none).start ≤ (getPeriodDates 0 .week Option.none).stop :=
  (C9_window_invariant 0 .week Option.none (fun h => nomatch h)).1

/-- C4 counterexample: on Wednesday 2025-01-08 the three week windows
start on three different days: the period resolver six days back, the
WooCommerce adapter on the preceding Sunday (three days back), and the
GA4 adapter seven days back. -/
theorem C4_counterexample :
    dayIndex (getPeriodDates (msFromCivil 2025 1 8 + 43200000) .week Option.none).start ≠
      dayIndex (wooGetDateRange (msFromCivil 2025 1 8 + 43200000) .week Option.none).after ∧
    dayIndex (getPeriodDates (msFromCivil 2025 1 8 + 43200000) .week Option.none).start ≠
      (ga4GetDateRange (msFromCivil 2025 1 8 + 43200000) .week Option.none).startDay ∧
    dayIndex (wooGetDateRange (msFromCivil 2025 1 8 + 43200000) .week Option.none).after ≠
      (ga4GetDateRange (msFromCivil 2025 1 8 + 43200000) .week Option.none).startDay := by
  decide

/-- C4 amended: the three components use different window-variant
definitions rather than a single consistent one: for week, month and
year the period resolver uses rolling windows starting N-1 days before
today (N in 7, 30, 365), the WooCommerce adapter uses calendar-aligned
windows (start of the Sunday-based week, of the month, of the year), and
the GA4 adapter uses N-days-ago windows starting N days before today;
the three week windows start on pairwise different days in general (see
the counterexample). -/
theorem C4_window_variants (now : Int) :
    (getPeriodDates now .week Option.none).start = startOfDay now - 6 * msPerDay ∧
    (wooGetDateRange now .week Option.none).after =
      startOfDay now - getDay now * msPerDay ∧
    (ga4GetDateRange now .week Option.none).startDay = dayIndex now - 7 ∧
    (getPeriodDates now .month Option.none).start = startOfDay now - 29 * msPerDay ∧
    (ga4GetDateRange now .month Option.none).startDay = dayIndex now - 30 ∧
    (getPeriodDates now .year Option.none).start = startOfDay now - 364 * msPerDay ∧
    (ga4GetDateRange now .year Option.none).startDay = dayIndex now - 365 ∧
    (getPeriodDates now .today Option.none).start = startOfDay now ∧
    (ga4GetDateRange now .today Option.none).startDay = dayIndex now :=
  ⟨rfl, rfl, rfl, rfl, rfl, rfl, rfl, rfl, rfl⟩

/-! ## Evaluation lemmas for concrete rational values -/

theorem jsRound_zero : jsRound 0 = 0 := by
  unfold jsRound
  norm_num

theorem toFixed2_zero : toFixed2 0 = "0.00" := by
  unfold toFixed2
  rw [show jsRound ((0 : ℚ) * 100) = 0 by unfold jsRound; norm_num]
  decide

theorem parseMetricValue_pound100 : parseMetricValue "£100" = 100 := by
  have h : parseMetricValue "£100" =
      (1 : ℚ) * ((100 : ℚ) + (0 : ℚ) / (10 : ℚ) ^ (0 : ℕ)) := rfl
  rw [h]
  norm_num

theorem parseMetricValue_na : parseMetricValue "N/A" = 0 := rfl

/-! ## Claims about the brand aggregation (C1, C2) -/

/-- C1 counterexample: with the WooCommerce service configured but its
order-stats call failing (the fetch outcome lands in the catch branch),
the revenue and orders metrics render as live zero values — value £0 and
0 with change LIVE and isLive true — rather than as a not-live
placeholder, because getOrderStats collapses every error into
revenue 0 / orders 0 / avgOrderValue 0 instead of null. -/
theorem C1_counterexample :
    ((getFirebloodData true Option.none Option.none "This Month").get? 0).map
        (fun m => (m.value, m.change, m.isLive)) = some ("£0", "LIVE", true) ∧
    ((getFirebloodData true Option.none Option.none "This Month").get? 1).map
        (fun m => (m.value, m.change, m.isLive)) = some ("0", "LIVE", true) := by
  constructor
  · have h : ((getFirebloodData true Option.none Option.none "This Month").get? 0).map
          (fun m => (m.value, m.change, m.isLive)) =
        some ("£" ++ toLocaleString (jsRound (0 : ℚ)), "LIVE", true) := rfl
    rw [h, jsRound_zero]
    decide
  · decide

/-- C1 amended: metrics whose provider factory returned null (provider
never configured) are marked isLive false with an explicit N/A
placeholder; however the isLive flag of the order-backed metrics equals
exactly whether the WooCommerce service was configured, independent of
whether its call succeeded — a failed or timed-out order-stats call is
still rendered as a live zero value (see the counterexample). -/
theorem C1_metric_liveness (wooPresent : Bool) (wooReports : Option OrderTotals)
    (ga4Stats : Option GA4Stats) (periodLabel : String) :
    (∀ i, i < 3 →
      ((getFirebloodData wooPresent wooReports ga4Stats periodLabel).get? i).map
          (fun m => m.isLive) = some wooPresent ∧
      (wooPresent = false →
        ((getFirebloodData wooPresent wooReports ga4Stats periodLabel).get? i).map
            (fun m => m.value) = some "N/A")) ∧
    (∀ i, i = 3 ∨ i = 5 →
      ((getFirebloodData wooPresent wooReports ga4Stats periodLabel).get? i).map
          (fun m => m.isLive) = some ga4Stats.isSome ∧
      (ga4Stats = Option.none →
        ((getFirebloodData wooPresent wooReports ga4Stats periodLabel).get? i).map
            (fun m => m.value) = some "N/A")) := by
  constructor
  · intro i hi
    interval_cases i <;>
      exact ⟨by cases wooPresent <;> rfl, fun hw => by subst hw; rfl⟩
  · intro i hi
    rcases hi with rfl | rfl <;>
      exact ⟨rfl, fun hg => by subst hg; rfl⟩

theorem C1_metric_liveness_witness :
    ((getFirebloodData false Option.none Option.none "This Month").get? 0).map
        (fun m => m.isLive) = some false ∧
    ((getFirebloodData false Option.none Option.none "This Month").get? 0).map
        (fun m => m.value) = some "N/A" ∧
    ((getFirebloodData false Option.none Option.none "This Month").get? 3).map
        (fun m => m.value) = some "N/A" := by
  have h := C1_metric_liveness false Option.none Option.none "This Month"
  exact ⟨(h.1 0 (by omega)).1, (h.1 0 (by omega)).2 rfl, (h.2 3 (Or.inl rfl)).2 rfl⟩

/-- C2 counterexample: aggregating with the order provider unconfigured
while the analytics provider returns 1000 sessions yields a revenue
metric that is a not-live placeholder and a live sessions metric of
1,000 as the claim expects, but the conversion-rate metric is rendered
as a live 0.00 percent value instead of being reported unavailable: the
code computes orders/sessions with the missing order count defaulted to
zero whenever sessions are live. -/
theorem C2_counterexample :
    ((getFirebloodData false Option.none (some ⟨1000, 49⟩) "This Month").get? 0).map
        (fun m => (m.value, m.isLive)) = some ("N/A", false) ∧
    ((getFirebloodData false Option.none (some ⟨1000, 49⟩) "This Month").get? 3).map
        (fun m => (m.value, m.isLive)) = some ("1,000", true) ∧
    ((getFirebloodData false Option.none (some ⟨1000, 49⟩) "This Month").get? 4).map
        (fun m => (m.value, m.change, m.isLive)) = some ("0.00%", "LIVE", true) := by
  refine ⟨by decide, by decide, ?_⟩
  have h0 : getFirebloodData false Option.none (some ⟨1000, 49⟩) "This Month" =
      getFirebloodMetrics Option.none (some ⟨1000, 49⟩) "This Month" := rfl
  rw [h0]
  simp only [getFirebloodMetrics]
  norm_num [toFixed2_zero, jsTruthyStr, List.get?]
  decide

/-- C2 amended: the conversion-rate metric is live exactly when the
analytics data is present with a positive session count, regardless of
whether the order data is live — missing order data is treated as zero
orders, so the metric can read a live 0.00 percent (see the
counterexample); it degrades to the N/A placeholder only when the
analytics data is absent (or reports no sessions). -/
theorem C2_conversion_rate (wooPresent : Bool) (wooReports : Option OrderTotals)
    (ga4Stats : Option GA4Stats) (periodLabel : String) :
    ((getFirebloodData wooPresent wooReports ga4Stats periodLabel).get? 4).map
        (fun m => m.isLive) =
      some (match ga4Stats with
            | some g => decide (0 < g.sessions)
            | Option.none => false) ∧
    (ga4Stats = Option.none →
      ((getFirebloodData wooPresent wooReports ga4Stats periodLabel).get? 4).map
          (fun m => m.value) = some "N/A") := by
  constructor
  · cases ga4Stats with
    | none => rfl
    | some g =>
        by_cases h : 0 < g.sessions
        · simp only [getFirebloodData, getFirebloodMetrics, List.get?, Option.map,
            jsTruthyStr, h, if_pos, decide_eq_true h]
          simp [bne_iff_ne, toFixed2_ne_empty]
        · simp only [getFirebloodData, getFirebloodMetrics, List.get?, Option.map,
            jsTruthyStr, if_neg h]
          simp [h]
  · intro hg
    subst hg
    rfl

theorem C2_conversion_rate_witness :
    ((getFirebloodData false Option.none Option.none "This Month").get? 4).map
        (fun m => m.isLive) = some false ∧
    ((getFirebloodData false Option.none Option.none "This Month").get? 4).map
        (fun m => m.value) = some "N/A" := by
  have h := C2_conversion_rate false Option.none Option.none "This Month"
  exact ⟨h.1, h.2 rfl⟩

/-! ## Claims about the delta annotation (C3) -/

theorem metricsWithDeltasFrom_get? (prev : Option (List BrandMetric)) (enabled : Bool) :
    ∀ (data : List BrandMetric) (start i : Nat),
      (metricsWithDeltasFrom prev enabled start data).get? i =
        (data.get? i).map
          (fun m => metricStep enabled (prev.bind (fun l => l.get? (start + i))) m) := by
  intro data
  induction data with
  | nil => intro start i; simp [metricsWithDeltasFrom]
  | cons m rest ih =>
      intro start i
      cases i with
      | zero => simp [metricsWithDeltasFrom]
      | succ j =>
          have h : start + (j + 1) = (start + 1) + j := by omega
          simp only [metricsWithDeltasFrom, List.get?, h]
          exact ih (start + 1) j

/-- C3 counterexample: with comparison enabled, a current metric of £100
whose previous-period metric is the placeholder N/A still receives delta
fields: the placeholder parses to 0, which is fed to calculateDelta as
the previous value, fabricating a plus 100 percent swing instead of
suppressing the delta. -/
theorem C3_counterexample :
    ((metricsWithDeltas
        [⟨"Revenue", "£100", "LIVE", "positive", "good", true⟩]
        (some [⟨"Revenue", "N/A", "Not connected", "positive", "good", false⟩])
        true).get? 0).map
      (fun r => (r.previousRaw, r.deltaPercent, r.deltaAbsolute)) =
    some (some 0, some 100, some 100) := by
  simp only [metricsWithDeltas, metricsWithDeltasFrom, metricStep, Option.bind, List.get?,
    Option.map, parseMetricValue_pound100, parseMetricValue_na]
  norm_num [calculateDelta]

/-- C3 amended: the delta fields are present iff comparison is enabled
and a previous metric exists at the same list index — regardless of
whether either raw value was obtainable; when they are present, the
previous raw value is whatever the previous display string parses to,
with an unparseable placeholder contributing 0 and therefore a
fabricated previous-is-zero delta (see the counterexample). -/
theorem C3_delta_presence (data : List BrandMetric) (prev : Option (List BrandMetric))
    (enabled : Bool) (i : Nat) (r : MetricWithDelta)
    (h : (metricsWithDeltas data prev enabled).get? i = some r) :
    (r.deltaPercent.isSome = (enabled && (prev.bind (fun l => l.get? i)).isSome)) ∧
    (r.deltaAbsolute.isSome = (enabled && (prev.bind (fun l => l.get? i)).isSome)) ∧
    (r.previousValue.isSome = (enabled && (prev.bind (fun l => l.get? i)).isSome)) ∧
    (r.previousRaw.isSome = (enabled && (prev.bind (fun l => l.get? i)).isSome)) ∧
    (∀ pm, enabled = true → prev.bind (fun l => l.get? i) = some pm →
      r.previousRaw = some (parseMetricValue pm.value) ∧
      r.deltaPercent =
        some (calculateDelta (parseMetricValue r.base.value)
          (parseMetricValue pm.value)).percent) := by
  rw [metricsWithDeltas, metricsWithDeltasFrom_get?, Nat.zero_add] at h
  cases hd : data.get? i with
  | none => rw [hd] at h; exact absurd h (by simp)
  | some m =>
      rw [hd] at h
      simp only [Option.map] at h
      injection h with h
      subst h
      cases henabled : enabled <;> cases hpm : prev.bind (fun l => l.get? i) <;>
        simp [metricStep, plainMetric, hpm, henabled]

theorem C3_delta_presence_witness :
    ∃ r, (metricsWithDeltas
        [⟨"Revenue", "£100", "LIVE", "positive", "good", true⟩]
        Option.none false).get? 0 = some r ∧
      r.deltaPercent.isSome = false := by
  refine ⟨plainMetric ⟨"Revenue", "£100", "LIVE", "positive", "good", true⟩, rfl, ?_⟩
  have h := C3_delta_presence
    [⟨"Revenue", "£100", "LIVE", "positive", "good", true⟩] Option.none false 0
    (plainMetric ⟨"Revenue", "£100", "LIVE", "positive", "good", true⟩) rfl
  exact h.1

end WarRoom
